import Mathlib

/-!
Shallow embedding of `src/app.py` (a FastAPI backend that validates an
uploaded image, forwards it to a vision completion API, and asks the same
API for a structured treatment recommendation) together with theorems
settling the specification claims about it.

Python JSON-like values are modelled by `PyVal`; Python exceptions by
`Except PyErr`.  External collaborators (the `requests.post` calls, PIL's
image verification and `json.loads`) are parameters of the embedded
functions, so the theorems quantify over every possible upstream
behaviour.
-/

namespace Chatbot

/-- A Python value as it appears in this program: `None`, booleans,
integers, strings, lists and string-keyed dicts. -/
inductive PyVal where
  | none
  | bool (b : Bool)
  | int (n : Int)
  | str (s : String)
  | list (xs : List PyVal)
  | dict (kvs : List (String × PyVal))

/-- The Python exception classes this program can meet, as far as its
`try/except` clauses distinguish them. -/
inductive PyErr where
  | typeError
  | keyError
  | indexError
  | attributeError
  | jsonDecodeError
deriving DecidableEq

/-- Python `data.get(key, default)` on a string-keyed dict. -/
def pyGet (kvs : List (String × PyVal)) (k : String) (d : PyVal) : PyVal :=
  match kvs.find? (fun kv => kv.1 == k) with
  | some kv => kv.2
  | Option.none => d

/-- Substring test on strings (Python `needle in hay` for `str`):
some position of `hay` starts the character list of `needle`. -/
def strHasSub (hay needle : String) : Bool :=
  (List.range (hay.data.length + 1)).any
    (fun i => needle.data.isPrefixOf (hay.data.drop i))

/-- Python `k in m` for a string `k`: key membership for dicts, substring
test for strings, element membership for lists (a string compares equal
only to the same string), `TypeError` otherwise. -/
def pyContains (k : String) : PyVal → Except PyErr Bool
  | .dict kvs => .ok (kvs.any (fun kv => kv.1 == k))
  | .str s => .ok (strHasSub s k)
  | .list xs => .ok (xs.any (fun x =>
      match x with
      | .str t => t == k
      | _ => false))
  | _ => .error .typeError

/-- Python iteration `for m in v`: lists yield their elements, strings
their one-character substrings, dicts their keys; anything else raises
`TypeError`. -/
def pyIterate : PyVal → Except PyErr (List PyVal)
  | .list xs => .ok xs
  | .str s => .ok (s.data.map (fun c => .str (String.singleton c)))
  | .dict kvs => .ok (kvs.map (fun kv => .str kv.1))
  | _ => .error .typeError

/-- The check `all(k in m for k in ["name", "dosage", "purpose"])` from
`validate_recommendation_structure`, with Python `all`'s short-circuit. -/
def hasAllKeys (m : PyVal) : Except PyErr Bool :=
  match pyContains "name" m with
  | .error e => .error e
  | .ok false => .ok false
  | .ok true =>
    match pyContains "dosage" m with
    | .error e => .error e
    | .ok false => .ok false
    | .ok true => pyContains "purpose" m

/-- The list comprehension
`[m for m in data.get("medications", []) if all(k in m for k in [...])]`
applied to the already-iterated elements. -/
def filterMeds : List PyVal → Except PyErr (List PyVal)
  | [] => .ok []
  | m :: ms =>
    match hasAllKeys m with
    | .error e => .error e
    | .ok b =>
      match filterMeds ms with
      | .error e => .error e
      | .ok rest => .ok (if b then m :: rest else rest)

/-- The function `validate_recommendation_structure` (src/app.py lines 37-44): keeps
only medication records with all of `name`, `dosage`, `purpose`, and reads
the other three fields with `data.get(key, [])`.  Calling it on a non-dict
raises `AttributeError` (no `.get`); a non-iterable `medications` value
raises `TypeError`. -/
def validate_recommendation_structure : PyVal → Except PyErr PyVal
  | .dict kvs =>
    match pyIterate (pyGet kvs "medications" (.list [])) with
    | .error e => .error e
    | .ok meds =>
      match filterMeds meds with
      | .error e => .error e
      | .ok kept =>
        .ok (.dict [("medications", .list kept),
          ("treatments", pyGet kvs "treatments" (.list [])),
          ("precautions", pyGet kvs "precautions" (.list [])),
          ("follow_up", pyGet kvs "follow_up" (.list []))])
  | _ => .error .attributeError

/-- Python subscript keys used by this program: string keys and
non-negative integer indices. -/
inductive PyKey where
  | s (k : String)
  | i (n : Nat)

/-- Python subscripting `v[k]`: dict lookup (missing key raises
`KeyError`), list indexing (out of range raises `IndexError`), string
indexing, `TypeError` otherwise. -/
def pySubscript (v : PyVal) (k : PyKey) : Except PyErr PyVal :=
  match v, k with
  | .dict kvs, .s key =>
    match kvs.find? (fun kv => kv.1 == key) with
    | some kv => .ok kv.2
    | Option.none => .error .keyError
  | .dict _, .i _ => .error .keyError
  | .list xs, .i n =>
    if h : n < xs.length then .ok (xs.get ⟨n, h⟩) else .error .indexError
  | .list _, .s _ => .error .typeError
  | .str s, .i n =>
    if h : n < s.data.length then .ok (.str (String.singleton (s.data.get ⟨n, h⟩)))
    else .error .indexError
  | _, _ => .error .typeError

/-- The chain `result["choices"][0]["message"]["content"]` used on both
completion-API responses. -/
def extractContent (result : PyVal) : Except PyErr PyVal :=
  match pySubscript result (.s "choices") with
  | .error e => .error e
  | .ok c =>
    match pySubscript c (.i 0) with
    | .error e => .error e
    | .ok c0 =>
      match pySubscript c0 (.s "message") with
      | .error e => .error e
      | .ok m => pySubscript m (.s "content")

/-- Python `json.loads` applied to a value: on a string it defers to the
JSON grammar (modelled by the `parse` parameter, since `json.loads` is an
external library routine); on anything else it raises `TypeError`. -/
def json_loads (parse : String → Except Unit PyVal) (v : PyVal) :
    Except PyErr PyVal :=
  match v with
  | .str s =>
    match parse s with
    | .ok r => .ok r
    | .error _ => .error .jsonDecodeError
  | _ => .error .typeError

/-- Python `s.startswith(pre)`: the characters of `pre` are a prefix of
the characters of `s`. -/
def startswith (s pre : String) : Bool := pre.data.isPrefixOf s.data

/-- The constant `REQUIRED_KEYS` (src/app.py line 31). -/
def REQUIRED_KEYS : List String :=
  ["medications", "treatments", "precautions", "follow_up"]

/-- The dict `\x7bkey: [] for key in REQUIRED_KEYS\x7d`, the fallback bundle returned on
every failure path of `generate_recommendations`. -/
def emptyBundle : PyVal := .dict (REQUIRED_KEYS.map (fun k => (k, .list [])))

/-- The observable outcome of one `requests.post` call: either the call
raised (transport error, timeout, ...) with some message, or it produced a
response with a status code and a `.json()` outcome (which itself may
raise when the body is not JSON). -/
inductive UpstreamOutcome where
  | exn (msg : String)
  | resp (status_code : Nat) (jsonBody : Except PyErr PyVal)

/-- The function `generate_recommendations` (src/app.py lines 46-95), as a function of
the upstream call's outcome.  The outer `try/except Exception` makes it
total: every failure path yields `emptyBundle`.  The inner
`except (json.JSONDecodeError, KeyError)` catches parse failures of the
model's content; errors it does not catch (for instance `TypeError` from
`json.loads` on a non-string content, or from iterating a non-iterable
`medications` value) fall through to the outer handler — with the same
fallback result. -/
def generate_recommendations (parse : String → Except Unit PyVal)
    (outcome : UpstreamOutcome) (analysis_text : PyVal) : PyVal :=
  match outcome with
  | .exn _ => emptyBundle
  | .resp status_code jsonBody =>
    if status_code ≠ 200 then emptyBundle
    else
      match jsonBody with
      | .error _ => emptyBundle
      | .ok result =>
        match extractContent result with
        | .error _ => emptyBundle
        | .ok content =>
          match json_loads parse content with
          | .error _ => emptyBundle
          | .ok recommendations =>
            match validate_recommendation_structure recommendations with
            | .error _ => emptyBundle
            | .ok v => v

/-- What the `/upload_and_query` handler observably did: the HTTP status,
the `HTTPException` detail (for error responses), the JSON body (for 200),
whether each upstream call was issued, and which byte buffer was handed to
`base64.b64encode` for the vision request. -/
structure EndpointResult where
  status : Nat
  detail : Option String
  body : Option PyVal
  visionCalled : Bool
  recCalled : Bool
  visionImageBytes : Option (List Nat)

/-- The handler `upload_and_query` (src/app.py lines 97-155), as a function of the
request data and of the behaviour of its collaborators: `verifyOk` models
whether `PIL.Image.open(...).verify()` succeeds on the uploaded bytes,
`visionOutcome` and `recOutcome` the two `requests.post` calls, `parse`
the JSON grammar.  `HTTPException`s are re-raised unchanged (400/502);
any other exception becomes a generic 500. -/
def upload_and_query (verifyOk : List Nat → Bool)
    (visionOutcome : UpstreamOutcome) (parse : String → Except Unit PyVal)
    (recOutcome : UpstreamOutcome) (content_type : String)
    (image_content : List Nat) (query : String) : EndpointResult :=
  if startswith content_type "image/" = false then
    { status := 400, detail := some "Invalid file type. Please upload an image",
      body := Option.none, visionCalled := false, recCalled := false,
      visionImageBytes := Option.none }
  else if verifyOk image_content = false then
    { status := 400, detail := some "Invalid or corrupted image file",
      body := Option.none, visionCalled := false, recCalled := false,
      visionImageBytes := Option.none }
  else
    match visionOutcome with
    | .exn _ =>
      { status := 500, detail := some "Internal server error",
        body := Option.none, visionCalled := true, recCalled := false,
        visionImageBytes := some image_content }
    | .resp status_code jsonBody =>
      if status_code ≠ 200 then
        { status := 502, detail := some "Image analysis service unavailable",
          body := Option.none, visionCalled := true, recCalled := false,
          visionImageBytes := some image_content }
      else
        match jsonBody with
        | .error _ =>
          { status := 500, detail := some "Internal server error",
            body := Option.none, visionCalled := true, recCalled := false,
            visionImageBytes := some image_content }
        | .ok analysis_result =>
          match extractContent analysis_result with
          | .error _ =>
            { status := 500, detail := some "Internal server error",
              body := Option.none, visionCalled := true, recCalled := false,
              visionImageBytes := some image_content }
          | .ok analysis_text =>
            { status := 200, detail := Option.none,
              body := some (.dict [("analysis", analysis_text),
                ("recommendations",
                  generate_recommendations parse recOutcome analysis_text)]),
              visionCalled := true, recCalled := true,
              visionImageBytes := some image_content }

/-- A medication record that passes the code's key check, restricted to
dict records: a dict carrying all of `name`, `dosage`, `purpose`. -/
def completeRecord : PyVal → Bool
  | .dict kvs =>
    ["name", "dosage", "purpose"].all (fun k => kvs.any (fun kv => kv.1 == k))
  | _ => false

/-- The spec's truncation law, written from the spec's words: the part of
the string before the first period (the whole string when there is no
period), capped at 100 characters. -/
def specTruncate (s : String) : String :=
  String.mk ((s.data.takeWhile (fun c => c ≠ '.')).take 100)

theorem filterMeds_mem {ms r : List PyVal} (h : filterMeds ms = .ok r) :
    ∀ m ∈ r, m ∈ ms := by
  induction ms generalizing r with
  | nil =>
    simp only [filterMeds, Except.ok.injEq] at h
    subst h
    simp
  | cons m ms ih =>
    intro x hx
    rw [filterMeds] at h
    cases hA : hasAllKeys m <;> rw [hA] at h
    · exact absurd h (by simp)
    · cases hR : filterMeds ms <;> rw [hR] at h
      · exact absurd h (by simp)
      · simp only [Except.ok.injEq] at h
        subst h
        rename_i b rest
        cases b with
        | false => exact List.mem_cons_of_mem m (ih hR x (by simpa using hx))
        | true =>
          rcases List.mem_cons.mp (by simpa using hx) with h1 | h2
          · simp [h1]
          · exact List.mem_cons_of_mem m (ih hR x h2)

theorem filterMeds_all_true {ms r : List PyVal} (h : filterMeds ms = .ok r) :
    ∀ m ∈ r, hasAllKeys m = .ok true := by
  induction ms generalizing r with
  | nil =>
    simp only [filterMeds, Except.ok.injEq] at h
    subst h
    simp
  | cons m ms ih =>
    intro x hx
    rw [filterMeds] at h
    cases hA : hasAllKeys m <;> rw [hA] at h
    · exact absurd h (by simp)
    · cases hR : filterMeds ms <;> rw [hR] at h
      · exact absurd h (by simp)
      · simp only [Except.ok.injEq] at h
        subst h
        rename_i b rest
        cases b with
        | false => exact ih hR x (by simpa using hx)
        | true =>
          rcases List.mem_cons.mp (by simpa using hx) with h1 | h2
          · rw [h1]; exact hA
          · exact ih hR x h2

theorem filterMeds_fixed {r : List PyVal}
    (hall : ∀ m ∈ r, hasAllKeys m = .ok true) : filterMeds r = .ok r := by
  induction r with
  | nil => simp [filterMeds]
  | cons m ms ih =>
    rw [filterMeds, hall m (by simp), ih (fun x hx => hall x (by simp [hx]))]
    simp

theorem hasAllKeys_dict (kvs : List (String × PyVal)) :
    hasAllKeys (.dict kvs) = .ok (completeRecord (.dict kvs)) := by
  cases h1 : kvs.any (fun kv => kv.1 == "name") <;>
    cases h2 : kvs.any (fun kv => kv.1 == "dosage") <;>
      cases h3 : kvs.any (fun kv => kv.1 == "purpose") <;>
        simp [hasAllKeys, pyContains, completeRecord, h1, h2, h3]

theorem filterMeds_dicts {ms : List PyVal}
    (hd : ∀ m ∈ ms, ∃ fields, m = .dict fields) :
    filterMeds ms = .ok (ms.filter completeRecord) := by
  induction ms with
  | nil => simp [filterMeds]
  | cons m ms ih =>
    obtain ⟨fields, rfl⟩ := hd m (by simp)
    rw [filterMeds, hasAllKeys_dict, ih (fun x hx => hd x (by simp [hx]))]
    cases hc : completeRecord (.dict fields) <;> simp [List.filter_cons, hc]

/-- C1, counterexample: a record whose dosage contains a period survives
validation with the dosage stored verbatim, while the spec's truncation
law demands the prefix before the first period — so the stored value does
not satisfy the truncation law. -/
theorem c1_counterexample :
    validate_recommendation_structure
        (.dict [("medications", .list [.dict [("name", .str "Ibuprofen"),
          ("dosage", .str "Take 200 mg. Repeat twice daily."),
          ("purpose", .str "Pain relief")]])]) =
      .ok (.dict [("medications", .list [.dict [("name", .str "Ibuprofen"),
          ("dosage", .str "Take 200 mg. Repeat twice daily."),
          ("purpose", .str "Pain relief")]]),
        ("treatments", .list []), ("precautions", .list []),
        ("follow_up", .list [])])
    ∧ specTruncate "Take 200 mg. Repeat twice daily." ≠
        "Take 200 mg. Repeat twice daily." :=
  ⟨rfl, by decide⟩

/-- C1 (amended): validation stores every surviving medication record
verbatim — each record in the output `medications` list is literally one
of the input records; in particular no truncation at the first period and
no 100-character cap is applied to dosage or purpose strings. -/
theorem c1_records_stored_verbatim (kvs : List (String × PyVal))
    (meds kept : List PyVal) (t p f : PyVal)
    (hm : pyGet kvs "medications" (.list []) = .list meds)
    (hv : validate_recommendation_structure (.dict kvs) =
      .ok (.dict [("medications", .list kept), ("treatments", t),
        ("precautions", p), ("follow_up", f)])) :
    ∀ m ∈ kept, m ∈ meds := by
  rw [validate_recommendation_structure, hm] at hv
  simp only [pyIterate] at hv
  cases hF : filterMeds meds <;> rw [hF] at hv
  · exact absurd hv (by simp)
  · simp only [Except.ok.injEq, PyVal.dict.injEq, List.cons.injEq,
      Prod.mk.injEq, PyVal.list.injEq, and_true, true_and] at hv
    obtain ⟨⟨rfl, -⟩, -⟩ := hv
    exact filterMeds_mem hF

/-- C1 witness: applying the amended theorem at a concrete input. -/
theorem c1_records_stored_verbatim_witness :
    PyVal.dict [("name", PyVal.str "Paracetamol"),
        ("dosage", PyVal.str "500 mg. After meals."),
        ("purpose", PyVal.str "Fever")] ∈
      [PyVal.dict [("name", PyVal.str "Paracetamol"),
        ("dosage", PyVal.str "500 mg. After meals."),
        ("purpose", PyVal.str "Fever")]] :=
  c1_records_stored_verbatim
    [("medications", .list [.dict [("name", .str "Paracetamol"),
      ("dosage", .str "500 mg. After meals."), ("purpose", .str "Fever")]])]
    _ _ _ _ _ rfl rfl _ (by simp)

/-- C2, counterexample: a present-but-malformed `treatments` value (a
string, not a list) is passed through unchanged rather than defaulted to
the empty list, refuting the claim that every malformed field becomes
`[]`. -/
theorem c2_counterexample :
    validate_recommendation_structure (.dict [("treatments", .str "bed rest")]) =
      .ok (.dict [("medications", .list []),
        ("treatments", .str "bed rest"),
        ("precautions", .list []), ("follow_up", .list [])])
    ∧ PyVal.str "bed rest" ≠ .list [] :=
  ⟨rfl, fun h => PyVal.noConfusion h⟩

/-- C2 (amended): whenever validation returns, the bundle carries exactly
the four keys `medications`, `treatments`, `precautions`, `follow_up`;
`medications` is the filtered record list and defaults to `[]` when the
field is absent; the other three fields are `data.get(key, [])` —
defaulting to `[]` when absent but passed through unchanged (even when
malformed) when present. -/
theorem c2_bundle_keys (kvs : List (String × PyVal)) (meds kept : List PyVal)
    (hI : pyIterate (pyGet kvs "medications" (.list [])) = .ok meds)
    (hF : filterMeds meds = .ok kept) :
    validate_recommendation_structure (.dict kvs) =
      .ok (.dict [("medications", .list kept),
        ("treatments", pyGet kvs "treatments" (.list [])),
        ("precautions", pyGet kvs "precautions" (.list [])),
        ("follow_up", pyGet kvs "follow_up" (.list []))])
    ∧ (kvs.find? (fun kv => kv.1 == "medications") = Option.none →
        kept = []) := by
  constructor
  · simp only [validate_recommendation_structure, hI, hF]
  · intro hnone
    rw [pyGet, hnone] at hI
    simp only [pyIterate, Except.ok.injEq] at hI
    subst hI
    simp only [filterMeds, Except.ok.injEq] at hF
    exact hF.symm

/-- C2 witness: applying the amended theorem to a response that omits all
four fields. -/
theorem c2_bundle_keys_witness :
    validate_recommendation_structure (.dict [("analysis", .str "x")]) =
      .ok (.dict [("medications", .list []),
        ("treatments", pyGet [("analysis", .str "x")] "treatments" (.list [])),
        ("precautions", pyGet [("analysis", .str "x")] "precautions" (.list [])),
        ("follow_up", pyGet [("analysis", .str "x")] "follow_up" (.list []))])
    ∧ (List.find? (fun kv => kv.1 == "medications")
        [("analysis", PyVal.str "x")] = Option.none → ([] : List PyVal) = []) :=
  c2_bundle_keys [("analysis", .str "x")] [] [] rfl rfl

/-- C3: `generate_recommendations` is total (its outer
`except Exception` means it never raises past its boundary — the embedded
function returns a plain value), and on every failure outcome of the
upstream call — the call raising, a non-200 status, a body that is not
JSON, a 200 body missing the expected `choices[0].message.content` shape,
or a content string that is not valid JSON — it returns the bundle with
all four keys set to empty lists. -/
theorem c3_failure_empty_bundle (parse : String → Except Unit PyVal)
    (analysis : PyVal) (outcome : UpstreamOutcome)
    (hfail : (∃ msg, outcome = .exn msg)
      ∨ (∃ s b, outcome = .resp s b ∧ s ≠ 200)
      ∨ (∃ e, outcome = .resp 200 (.error e))
      ∨ (∃ r e, outcome = .resp 200 (.ok r) ∧ extractContent r = .error e)
      ∨ (∃ r s, outcome = .resp 200 (.ok r) ∧ extractContent r = .ok (.str s)
          ∧ parse s = .error ())) :
    generate_recommendations parse outcome analysis = emptyBundle := by
  rcases hfail with ⟨msg, rfl⟩ | ⟨s, b, rfl, hs⟩ | ⟨e, rfl⟩ | ⟨r, e, rfl, hr⟩ |
    ⟨r, s, rfl, hr, hp⟩
  · rfl
  · simp [generate_recommendations, hs]
  · simp [generate_recommendations]
  · simp [generate_recommendations, hr]
  · simp [generate_recommendations, hr, json_loads, hp]

/-- C3 witness: a 500 from the recommendation upstream yields the empty
bundle. -/
theorem c3_failure_empty_bundle_witness :
    generate_recommendations (fun _ => .error ()) (.resp 500 (.ok (.dict [])))
      (.str "analysis") = emptyBundle :=
  c3_failure_empty_bundle _ _ _
    (Or.inr (Or.inl ⟨500, .ok (.dict []), rfl, by decide⟩))

/-- C4, counterexample: a valid image whose vision upstream answers HTTP
200 with a body missing `choices` is mapped by the handler's generic
`except Exception` to status 500 — not 502 as the claim states. -/
theorem c4_counterexample :
    (upload_and_query (fun _ => true) (.resp 200 (.ok (.dict [])))
      (fun _ => .error ()) (.exn "down") "image/png" [137, 80]
      "describe").status = 500
    ∧ (upload_and_query (fun _ => true) (.resp 200 (.ok (.dict [])))
      (fun _ => .error ()) (.exn "down") "image/png" [137, 80]
      "describe").status ≠ 502 := by
  constructor <;> decide

/-- C4 (amended): for a valid upload whose vision upstream returns HTTP
200 with a malformed body — not JSON, or JSON missing the expected
`choices[0].message.content` shape — the endpoint fails the request with
status 500 (the generic internal error), not 502; 502 is reserved for
non-200 upstream statuses. -/
theorem c4_malformed_vision_body_500 (verifyOk : List Nat → Bool)
    (parse : String → Except Unit PyVal) (recOutcome : UpstreamOutcome)
    (ct : String) (img : List Nat) (q : String) (body : Except PyErr PyVal)
    (hct : startswith ct "image/" = true) (himg : verifyOk img = true)
    (hbad : (∃ e, body = .error e)
      ∨ (∃ r e, body = .ok r ∧ extractContent r = .error e)) :
    (upload_and_query verifyOk (.resp 200 body) parse recOutcome
      ct img q).status = 500 := by
  rcases hbad with ⟨e, rfl⟩ | ⟨r, e, rfl, hr⟩
  · simp [upload_and_query, hct, himg]
  · simp [upload_and_query, hct, himg, hr]

/-- C4 witness: applying the amended theorem to a concrete malformed 200
response. -/
theorem c4_malformed_vision_body_500_witness :
    (upload_and_query (fun _ => true) (.resp 200 (.ok (.dict [("id", .str "x")])))
      (fun _ => .error ()) (.exn "down") "image/jpeg" [255, 216]
      "describe").status = 500 :=
  c4_malformed_vision_body_500 _ _ _ _ _ _ _ rfl rfl
    (Or.inr ⟨.dict [("id", .str "x")], .keyError, rfl, rfl⟩)

/-- C5: a request with a non-image declared content type, or whose bytes
fail image verification, is answered with 400 and neither the vision nor
the recommendation upstream call is made. -/
theorem c5_bad_upload_400_no_calls (verifyOk : List Nat → Bool)
    (visionOutcome : UpstreamOutcome) (parse : String → Except Unit PyVal)
    (recOutcome : UpstreamOutcome) (ct : String) (img : List Nat) (q : String)
    (hbad : startswith ct "image/" = false ∨ verifyOk img = false) :
    (upload_and_query verifyOk visionOutcome parse recOutcome ct img q).status = 400
    ∧ (upload_and_query verifyOk visionOutcome parse recOutcome ct img
        q).visionCalled = false
    ∧ (upload_and_query verifyOk visionOutcome parse recOutcome ct img
        q).recCalled = false := by
  rcases hbad with h | h
  · simp [upload_and_query, h]
  · by_cases hct : startswith ct "image/" = false
    · simp [upload_and_query, hct]
    · simp [upload_and_query, hct, h]

/-- C5 witness: a `text/plain` upload is rejected without upstream
calls. -/
theorem c5_bad_upload_400_no_calls_witness :
    (upload_and_query (fun _ => true) (.exn "unused") (fun _ => .error ())
      (.exn "unused") "text/plain" [1, 2, 3] "q").status = 400
    ∧ (upload_and_query (fun _ => true) (.exn "unused") (fun _ => .error ())
      (.exn "unused") "text/plain" [1, 2, 3] "q").visionCalled = false
    ∧ (upload_and_query (fun _ => true) (.exn "unused") (fun _ => .error ())
      (.exn "unused") "text/plain" [1, 2, 3] "q").recCalled = false :=
  c5_bad_upload_400_no_calls _ _ _ _ _ _ _ (Or.inl (by decide))

/-- C6: for a valid upload whose vision upstream returns a non-200
status, the endpoint answers 502, the response carries no JSON body (in
particular no recommendation data), and the recommendation upstream is
never called. -/
theorem c6_vision_non200_502 (verifyOk : List Nat → Bool)
    (parse : String → Except Unit PyVal) (recOutcome : UpstreamOutcome)
    (s : Nat) (body : Except PyErr PyVal) (ct : String) (img : List Nat)
    (q : String) (hct : startswith ct "image/" = true)
    (himg : verifyOk img = true) (hs : s ≠ 200) :
    (upload_and_query verifyOk (.resp s body) parse recOutcome ct img
      q).status = 502
    ∧ (upload_and_query verifyOk (.resp s body) parse recOutcome ct img
        q).body = Option.none
    ∧ (upload_and_query verifyOk (.resp s body) parse recOutcome ct img
        q).recCalled = false := by
  simp [upload_and_query, hct, himg, hs]

/-- C6 witness: a vision-side HTTP 500 at a concrete request. -/
theorem c6_vision_non200_502_witness :
    (upload_and_query (fun _ => true) (.resp 500 (.ok (.dict [])))
      (fun _ => .error ()) (.exn "unused") "image/png" [9] "q").status = 502
    ∧ (upload_and_query (fun _ => true) (.resp 500 (.ok (.dict [])))
      (fun _ => .error ()) (.exn "unused") "image/png" [9] "q").body = Option.none
    ∧ (upload_and_query (fun _ => true) (.resp 500 (.ok (.dict [])))
      (fun _ => .error ()) (.exn "unused") "image/png" [9] "q").recCalled = false :=
  c6_vision_non200_502 _ _ _ _ _ _ _ _ rfl rfl (by decide)

/-- C7: when the upstream `medications` field is a list of dict records,
validation succeeds (a malformed record never makes the call fail
outright), keeps exactly the records carrying all of `name`, `dosage` and
`purpose`, and silently drops every record missing one of them. -/
theorem c7_record_filtering (kvs : List (String × PyVal)) (meds : List PyVal)
    (hm : pyGet kvs "medications" (.list []) = .list meds)
    (hd : ∀ m ∈ meds, ∃ fields, m = .dict fields) :
    validate_recommendation_structure (.dict kvs) =
      .ok (.dict [("medications", .list (meds.filter completeRecord)),
        ("treatments", pyGet kvs "treatments" (.list [])),
        ("precautions", pyGet kvs "precautions" (.list [])),
        ("follow_up", pyGet kvs "follow_up" (.list []))]) := by
  simp only [validate_recommendation_structure, hm, pyIterate,
    filterMeds_dicts hd]

/-- C7 witness: one well-formed record is kept, a record missing
`purpose` is dropped, and the call still succeeds. -/
theorem c7_record_filtering_witness :
    validate_recommendation_structure
        (.dict [("medications", .list [
          .dict [("name", .str "Amoxicillin"), ("dosage", .str "500 mg"),
            ("purpose", .str "Infection")],
          .dict [("name", .str "Mystery"), ("dosage", .str "1 tab")]])]) =
      .ok (.dict [("medications", .list [
          .dict [("name", .str "Amoxicillin"), ("dosage", .str "500 mg"),
            ("purpose", .str "Infection")]]),
        ("treatments", .list []), ("precautions", .list []),
        ("follow_up", .list [])]) :=
  c7_record_filtering
    [("medications", .list [
      .dict [("name", .str "Amoxicillin"), ("dosage", .str "500 mg"),
        ("purpose", .str "Infection")],
      .dict [("name", .str "Mystery"), ("dosage", .str "1 tab")]])]
    _ rfl
    (by
      intro m hm
      rcases List.mem_cons.mp hm with rfl | hm2
      · exact ⟨_, rfl⟩
      · rcases List.mem_cons.mp hm2 with rfl | h
        · exact ⟨_, rfl⟩
        · exact absurd h (List.not_mem_nil m))

/-- C8: every response of the handler carries one of the statuses 200,
400, 502 or 500, and whenever the generic `except Exception` handler
fires (status 500) the response detail is the fixed string
"Internal server error" — independent of the upstream exception message,
so the original exception detail never crosses the response boundary. -/
theorem c8_generic_500 (verifyOk : List Nat → Bool)
    (visionOutcome : UpstreamOutcome) (parse : String → Except Unit PyVal)
    (recOutcome : UpstreamOutcome) (ct : String) (img : List Nat)
    (q : String) :
    ((upload_and_query verifyOk visionOutcome parse recOutcome ct img
        q).status = 200
      ∨ (upload_and_query verifyOk visionOutcome parse recOutcome ct img
        q).status = 400
      ∨ (upload_and_query verifyOk visionOutcome parse recOutcome ct img
        q).status = 502
      ∨ (upload_and_query verifyOk visionOutcome parse recOutcome ct img
        q).status = 500)
    ∧ ((upload_and_query verifyOk visionOutcome parse recOutcome ct img
        q).status = 500 →
      (upload_and_query verifyOk visionOutcome parse recOutcome ct img
        q).detail = some "Internal server error") := by
  unfold upload_and_query
  split
  · simp
  · split
    · simp
    · split
      · simp
      · split
        · simp
        · split
          · simp
          · split <;> simp

/-- C8 witness: a vision-side transport exception with an arbitrary
message is answered by the fixed generic 500 detail. -/
theorem c8_generic_500_witness :
    (upload_and_query (fun _ => true) (.exn "socket timeout: 10.0.0.7")
      (fun _ => .error ()) (.exn "x") "image/png" [1] "q").detail =
      some "Internal server error" :=
  (c8_generic_500 (fun _ => true) (.exn "socket timeout: 10.0.0.7")
    (fun _ => .error ()) (.exn "x") "image/png" [1] "q").2 rfl

/-- C9: for every upload that passes validation, the byte buffer handed
to `base64.b64encode` for the vision request is exactly the uploaded byte
buffer — intake and validation do not modify it. -/
theorem c9_bytes_unchanged (verifyOk : List Nat → Bool)
    (visionOutcome : UpstreamOutcome) (parse : String → Except Unit PyVal)
    (recOutcome : UpstreamOutcome) (ct : String) (img : List Nat)
    (q : String) (hct : startswith ct "image/" = true)
    (himg : verifyOk img = true) :
    (upload_and_query verifyOk visionOutcome parse recOutcome ct img
      q).visionImageBytes = some img := by
  cases visionOutcome with
  | exn msg => simp [upload_and_query, hct, himg]
  | resp s b =>
    by_cases hs : s ≠ 200
    · simp [upload_and_query, hct, himg, hs]
    · cases b with
      | error e => simp [upload_and_query, hct, himg, hs]
      | ok r =>
        cases hr : extractContent r <;>
          simp [upload_and_query, hct, himg, hs, hr]

/-- C9 witness: a concrete valid upload hands its own bytes onward. -/
theorem c9_bytes_unchanged_witness :
    (upload_and_query (fun _ => true) (.resp 200 (.ok (.dict [])))
      (fun _ => .error ()) (.exn "x") "image/png" [137, 80, 78, 71]
      "q").visionImageBytes = some [137, 80, 78, 71] :=
  c9_bytes_unchanged _ _ _ _ _ _ _ rfl rfl

/-- C10: validation is idempotent — whenever
`validate_recommendation_structure` succeeds on an input dict (in the
claim's case the `medications` field, when present, is a list of
records), applying it again to its own output returns the same bundle
unchanged. -/
theorem c10_idempotent (kvs : List (String × PyVal)) (y : PyVal)
    (hmeds : ∃ xs, pyGet kvs "medications" (.list []) = .list xs)
    (hx : validate_recommendation_structure (.dict kvs) = .ok y) :
    validate_recommendation_structure y = .ok y := by
  clear hmeds
  rw [validate_recommendation_structure] at hx
  cases hI : pyIterate (pyGet kvs "medications" (.list [])) <;>
    simp only [hI] at hx
  · exact absurd hx (by simp)
  · rename_i meds
    cases hF : filterMeds meds <;> simp only [hF] at hx
    · exact absurd hx (by simp)
    · rename_i kept
      simp only [Except.ok.injEq] at hx
      subst hx
      have hfix : filterMeds kept = .ok kept :=
        filterMeds_fixed (filterMeds_all_true hF)
      simp [validate_recommendation_structure, pyGet, pyIterate, hfix,
        List.find?]

/-- C10 witness: re-validating a concrete validated bundle changes
nothing. -/
theorem c10_idempotent_witness :
    validate_recommendation_structure
        (.dict [("medications", .list [.dict [("name", .str "Ibuprofen"),
            ("dosage", .str "200 mg"), ("purpose", .str "Pain")]]),
          ("treatments", .list [.str "rest"]), ("precautions", .list []),
          ("follow_up", .list [.str "x-ray in 6 weeks"])]) =
      .ok (.dict [("medications", .list [.dict [("name", .str "Ibuprofen"),
            ("dosage", .str "200 mg"), ("purpose", .str "Pain")]]),
          ("treatments", .list [.str "rest"]), ("precautions", .list []),
          ("follow_up", .list [.str "x-ray in 6 weeks"])]) :=
  c10_idempotent
    [("medications", .list [.dict [("name", .str "Ibuprofen"),
        ("dosage", .str "200 mg"), ("purpose", .str "Pain")]]),
      ("treatments", .list [.str "rest"]),
      ("follow_up", .list [.str "x-ray in 6 weeks"])]
    _ ⟨_, rfl⟩ rfl

end Chatbot
